import Mathlib

/-!
Verification of the ArmorCode web-agent worker loop (`web-agent/app/worker.py`).

The development shallowly embeds the pure decision logic of the worker:
size-based routing of a streamed response body (inline base64 versus artifact
upload), the per-task deadline computation, the retry schedules of
`update_task` (put-result) and `upload_response` (upload-result), the get-task
backoff state machine, the watchdog health predicate, the per-task temp-file
lifecycle, and the `update_agent_config` rate-limiter update.  Machine floats
used by the source for clock values are modelled as rationals; byte strings
are lists of naturals below 256.
-/

namespace ArmorAgent

/-- `max_file_size = 1024 * 500` from worker.py line 54: the largest body that
is still sent inline in the task result. -/
def max_file_size : Nat := 1024 * 500

/-- `max_retry = 3` from worker.py line 57, used by `update_task`. -/
def max_retry : Nat := 3

/-- `max_backoff_time = 600` from worker.py line 58. -/
def max_backoff_time : Nat := 600

/-- `min_backoff_time = 5` from worker.py line 59. -/
def min_backoff_time : Nat := 5

/-! ### Base64 (semantics of Python `base64.b64encode`)

`process_task` calls `base64.b64encode(file_data).decode('utf-8')`; the
standard base64 encoding is reproduced here so the inline branch can be
stated exactly.  Bytes are naturals taken mod 256. -/

/-- The standard base64 alphabet. -/
def b64Alphabet : List Char :=
  ("ABCDEFGHIJKLMNOPQRSTUVWXYZabcdefghijklmnopqrstuvwxyz0123456789+/").toList

/-- The base64 digit for a 6-bit value. -/
def b64Char (n : Nat) : Char := b64Alphabet.getD n (Char.ofNat 65)

/-- Base64-encode a byte list, three input bytes to four output characters,
with the usual padding (character 61 is the pad character). -/
def b64encode : List Nat → List Char
  | [] => []
  | [a] =>
    let x := (a % 256) * 65536
    [b64Char (x / 262144), b64Char (x / 4096 % 64), Char.ofNat 61, Char.ofNat 61]
  | [a, b] =>
    let x := (a % 256) * 65536 + (b % 256) * 256
    [b64Char (x / 262144), b64Char (x / 4096 % 64), b64Char (x / 64 % 64), Char.ofNat 61]
  | a :: b :: c :: rest =>
    let x := (a % 256) * 65536 + (b % 256) * 256 + (c % 256)
    b64Char (x / 262144) :: b64Char (x / 4096 % 64) :: b64Char (x / 64 % 64) ::
      b64Char (x % 64) :: b64encode rest

/-- Base64 encoding as a string, matching `b64encode(file_data).decode('utf-8')`. -/
def b64encodeStr (bs : List Nat) : String := String.mk (b64encode bs)

/-! ### Task results and size-based routing (`process_task`, lines 1016-1038) -/

/-- The result-bearing keys `process_task` may add to the task dict.  A field
is `none` when the corresponding key is absent from the dict. -/
structure TaskResult where
  taskId : String
  statusCode : Option Int
  responseHeaders : Option (List (String × String))
  responseBase64 : Option Bool
  output : Option String
  s3Url : Option String
deriving DecidableEq, Repr

/-- A task dict as it arrives from the control plane: no result keys yet. -/
def freshTask (id : String) : TaskResult :=
  { taskId := id, statusCode := none, responseHeaders := none,
    responseBase64 := none, output := none, s3Url := none }

/-- Where `process_task` sends the finished body: returned inline, or handed
to `upload_response`. -/
inductive Routed where
  | inline (t : TaskResult)
  | upload (t : TaskResult)
deriving DecidableEq, Repr

/-- The task carried by either routing outcome. -/
def Routed.result : Routed → TaskResult
  | .inline t => t
  | .upload t => t

/-- Size-based routing of `process_task` (worker.py lines 1016-1038) once the
body has been fully streamed to the temp file: record `responseHeaders` and
`statusCode`; `is_s3_upload = file_size > max_file_size` selects
`upload_response`; otherwise an empty file returns the task as is and a
non-empty one attaches the base64 body with `responseBase64 = True`. -/
def route_response (status : Int) (respHeaders : List (String × String))
    (body : List Nat) (task : TaskResult) : Routed :=
  let task1 := { task with responseHeaders := some respHeaders, statusCode := some status }
  if body.length > max_file_size then
    Routed.upload task1
  else if body.length = 0 then
    Routed.inline task1
  else
    Routed.inline { task1 with responseBase64 := some true,
                               output := some (b64encodeStr body) }

/-! ### Theorems for C1 and C9 -/

/-- C1 counterexample: a fully streamed empty body has size `0 ≤ 512000`, yet
the executor returns the task with no `responseBase64` flag and no `output`,
not `responseBase64 = true` with the base64 of the (empty) bytes as the claim
states for every body of size at most 512000. -/
theorem C1_empty_body_not_base64 :
    (Routed.result (route_response 200 [] [] (freshTask "t1"))).responseBase64 = none ∧
    (Routed.result (route_response 200 [] [] (freshTask "t1"))).output = none ∧
    List.length ([] : List Nat) ≤ max_file_size := by
  refine ⟨rfl, rfl, by decide⟩

/-- C1 (amended): for a fully streamed body, a NON-empty body of size at most
512000 bytes (the boundary inclusive) is returned inline with
`responseBase64 = true` and `output` the base64 encoding of the bytes, while a
body strictly larger than 512000 bytes is handed to the artifact upload path
with no inline `output` and no `responseBase64` flag attached. -/
theorem C1_size_routing (status : Int) (respHeaders : List (String × String))
    (body : List Nat) (t : TaskResult)
    (hout : t.output = none) (hb64 : t.responseBase64 = none) :
    (0 < body.length → body.length ≤ max_file_size →
      route_response status respHeaders body t =
        Routed.inline { t with responseHeaders := some respHeaders,
                               statusCode := some status,
                               responseBase64 := some true,
                               output := some (b64encodeStr body) }) ∧
    (max_file_size < body.length →
      route_response status respHeaders body t =
        Routed.upload { t with responseHeaders := some respHeaders,
                               statusCode := some status } ∧
      (Routed.result (route_response status respHeaders body t)).output = none ∧
      (Routed.result (route_response status respHeaders body t)).responseBase64 = none) := by
  constructor
  · intro h0 hle
    have h1 : ¬ body.length > max_file_size := by omega
    have h2 : ¬ body.length = 0 := by omega
    simp [route_response, h1, h2]
  · intro hgt
    have h1 : body.length > max_file_size := hgt
    refine ⟨by simp [route_response, h1], ?_, ?_⟩ <;>
      simp [route_response, h1, Routed.result, hout, hb64]

/-- C1 witness: the amended routing at concrete inputs (a 1-byte body and a
fresh task). -/
theorem C1_size_routing_witness :
    (0 < List.length [104] → List.length [104] ≤ max_file_size →
      route_response 200 [] [104] (freshTask "t1") =
        Routed.inline { freshTask "t1" with responseHeaders := some [],
                                            statusCode := some 200,
                                            responseBase64 := some true,
                                            output := some (b64encodeStr [104]) }) ∧
    (max_file_size < List.length [104] →
      route_response 200 [] [104] (freshTask "t1") =
        Routed.upload { freshTask "t1" with responseHeaders := some [],
                                            statusCode := some 200 } ∧
      (Routed.result (route_response 200 [] [104] (freshTask "t1"))).output = none ∧
      (Routed.result (route_response 200 [] [104] (freshTask "t1"))).responseBase64 = none) :=
  C1_size_routing 200 [] [104] (freshTask "t1") rfl rfl

/-- C9: an empty (0-byte) body is returned inline with no `output` key and no
`responseBase64` flag, while the recorded `statusCode` and `responseHeaders`
from the target response are retained. -/
theorem C9_empty_body (status : Int) (respHeaders : List (String × String))
    (t : TaskResult) (hout : t.output = none) (hb64 : t.responseBase64 = none) :
    route_response status respHeaders [] t =
      Routed.inline { t with responseHeaders := some respHeaders,
                             statusCode := some status } ∧
    (Routed.result (route_response status respHeaders [] t)).output = none ∧
    (Routed.result (route_response status respHeaders [] t)).responseBase64 = none ∧
    (Routed.result (route_response status respHeaders [] t)).statusCode = some status ∧
    (Routed.result (route_response status respHeaders [] t)).responseHeaders =
      some respHeaders := by
  have h1 : ¬ List.length ([] : List Nat) > max_file_size := by decide
  refine ⟨by simp [route_response, h1], ?_, ?_, ?_, ?_⟩ <;>
    simp [route_response, h1, Routed.result, hout, hb64]

/-- C9 witness: the empty-body behaviour at concrete inputs. -/
theorem C9_empty_body_witness :
    route_response 200 [("Server", "nginx")] [] (freshTask "t9") =
      Routed.inline { freshTask "t9" with responseHeaders := some [("Server", "nginx")],
                                          statusCode := some 200 } ∧
    (Routed.result (route_response 200 [("Server", "nginx")] [] (freshTask "t9"))).output = none ∧
    (Routed.result (route_response 200 [("Server", "nginx")] [] (freshTask "t9"))).responseBase64 = none ∧
    (Routed.result (route_response 200 [("Server", "nginx")] [] (freshTask "t9"))).statusCode = some 200 ∧
    (Routed.result (route_response 200 [("Server", "nginx")] [] (freshTask "t9"))).responseHeaders =
      some [("Server", "nginx")] :=
  C9_empty_body 200 [("Server", "nginx")] (freshTask "t9") rfl rfl

/-! ### Per-task deadline (`process_task`, lines 934 and 959)

`timeout = round((expiryTime - round(time.time() * 1000)) / 1000)`: the
difference of epoch milliseconds divided by 1000 and rounded with Python's
round-half-to-even.  `nowMs` stands for the already-rounded
`round(time.time() * 1000)`; the exact rational division is modelled. -/

/-- Round-half-to-even of `d / 1000`, the semantics of Python `round` on the
exact quotient. -/
def pyRoundDiv1000 (d : Int) : Int :=
  let q := d / 1000
  let r := d % 1000
  if r < 500 then q
  else if 500 < r then q + 1
  else if q % 2 = 0 then q else q + 1

/-- The effective read timeout `process_task` passes to the target request
(worker.py line 959): no lower bound is applied. -/
def compute_timeout (expiryTsMs nowMs : Int) : Int :=
  pyRoundDiv1000 (expiryTsMs - nowMs)

/-- Modelled from the spec: the claimed effective deadline
`max(5s, (expiryTsMs - now)/1000)`, for comparison with `compute_timeout`. -/
def spec_effective_deadline (expiryTsMs nowMs : Int) : Int :=
  max 5 ((expiryTsMs - nowMs) / 1000)

/-- C2 counterexample: with `expiryTsMs = 900000` already 100 seconds in the
past of `nowMs = 1000000`, the code computes a timeout of `-100` seconds,
not the `max(5s, ...) = 5` the claim states. -/
theorem C2_no_five_second_floor_cex :
    compute_timeout 900000 1000000 = -100 ∧
    spec_effective_deadline 900000 1000000 = 5 ∧
    compute_timeout 900000 1000000 ≠ spec_effective_deadline 900000 1000000 := by
  decide

/-- C2 (amended): the effective read deadline is
`round((expiryTsMs - nowMs) / 1000)` with no 5-second floor; whenever
`expiryTsMs` is not in the future the deadline is zero or negative, never 5. -/
theorem C2_past_expiry_nonpositive (expiryTsMs nowMs : Int)
    (h : expiryTsMs ≤ nowMs) :
    compute_timeout expiryTsMs nowMs ≤ 0 := by
  simp only [compute_timeout, pyRoundDiv1000]
  split_ifs <;> omega

/-- C2 witness: the nonpositive deadline at a concrete past expiry. -/
theorem C2_past_expiry_witness : compute_timeout 900000 1000000 ≤ 0 :=
  C2_past_expiry_nonpositive 900000 1000000 (by decide)

/-! ### Result-post retry schedules (C3, C4)

`update_task` (worker.py lines 1086-1120) posts put-result; on 429 or 504 it
sleeps a fixed 2 seconds and recurses with `count + 1`, giving up once
`count > max_retry`.  `upload_response` (worker.py lines 829-912) posts
upload-result for at most `max_retries = 5` attempts with `retry_delay`
starting at 1 second and doubling after every failed attempt. -/

set_option linter.unusedVariables false in
/-- The delay `update_task` sleeps before its next attempt, as a function of
the response status and body (worker.py lines 1106-1116).  The body is never
inspected: 429 and 504 sleep exactly 2 seconds, every other status ends the
call (200 success, otherwise drop). -/
def update_task_retry_delay (status : Int) (body : String) : Option Nat :=
  if status = 200 then none
  else if status = 429 ∨ status = 504 then some 2
  else none

/-- Trace of `update_task` over the statuses that successive put-result posts
would receive: returns (number of posts issued, delays slept between them).
The count guard `count > max_retry` runs before each post. -/
def update_task_run (rs : List Int) (count : Nat) : Nat × List Nat :=
  if count > max_retry then (0, [])
  else
    match rs with
    | [] => (0, [])
    | s :: rest =>
      if s = 200 then (1, [])
      else if s = 429 ∨ s = 504 then
        let r := update_task_run rest (count + 1)
        (r.1 + 1, 2 :: r.2)
      else (1, [])

/-- Trace of the `upload_response` retry loop over the statuses of successive
upload-result posts: any status at least 400 (including 429) fails the
attempt via `raise_for_status`, and a failed attempt below `max_retries = 5`
sleeps the current delay and doubles it. -/
def upload_run (rs : List Int) (attempt : Nat) (delay : Nat) : Nat × List Nat :=
  match rs with
  | [] => (0, [])
  | s :: rest =>
    if s < 400 then (1, [])
    else if attempt < 5 then
      let r := upload_run rest (attempt + 1) (delay * 2)
      (r.1 + 1, delay :: r.2)
    else (1, [])

/-- Helper: a retryable status makes `update_task` sleep 2 s and recurse. -/
theorem update_task_run_cons_retry (s : Int) (rest : List Int) (count : Nat)
    (hs : s = 429 ∨ s = 504) (hc : ¬ count > max_retry) :
    update_task_run (s :: rest) count =
      ((update_task_run rest (count + 1)).1 + 1,
        2 :: (update_task_run rest (count + 1)).2) := by
  rcases hs with rfl | rfl <;> simp [update_task_run, hc]

/-- Helper: once the count guard trips, `update_task` stops posting. -/
theorem update_task_run_stop (rs : List Int) (count : Nat)
    (hc : count > max_retry) : update_task_run rs count = (0, []) := by
  cases rs <;> simp [update_task_run, hc]

/-- Helper: a failing status below the last attempt sleeps the current delay
and doubles it. -/
theorem upload_run_cons_fail (s : Int) (rest : List Int) (attempt delay : Nat)
    (hs : 400 ≤ s) (ha : attempt < 5) :
    upload_run (s :: rest) attempt delay =
      ((upload_run rest (attempt + 1) (delay * 2)).1 + 1,
        delay :: (upload_run rest (attempt + 1) (delay * 2)).2) := by
  have h1 : ¬ s < 400 := by omega
  simp [upload_run, h1, ha]

/-- Helper: a failing status on the last attempt raises without sleeping. -/
theorem upload_run_cons_last (s : Int) (rest : List Int) (delay : Nat)
    (hs : 400 ≤ s) : upload_run (s :: rest) 5 delay = (1, []) := by
  have h1 : ¬ s < 400 := by omega
  simp [upload_run, h1]

/-- C3 counterexample: a put-result post that is answered 429 on every
attempt is posted only 4 times with fixed 2-second delays, not the claimed
canonical schedule of 5 attempts with delays 1, 2, 4, 8, 16 seconds. -/
theorem C3_schedule_cex :
    update_task_run [429, 429, 429, 429, 429, 429] 0 = (4, [2, 2, 2, 2]) ∧
    ((4, [2, 2, 2, 2]) : Nat × List Nat) ≠ (5, [1, 2, 4, 8, 16]) := by
  decide

/-- C3 (amended): put-result (`update_task`) retries 429/504 with a fixed
2-second delay and at most 4 posts (`max_retry = 3` counts the three
re-posts); upload-result (`upload_response`) makes up to 5 attempts with
delays 1, 2, 4, 8 seconds between consecutive attempts — the doubling never
reaches a cap. -/
theorem C3_retry_schedules (rs us : List Int)
    (hrs : ∀ s ∈ rs, s = 429 ∨ s = 504) (hrlen : 4 ≤ rs.length)
    (hus : ∀ s ∈ us, 400 ≤ s) (hulen : 5 ≤ us.length) :
    update_task_run rs 0 = (4, [2, 2, 2, 2]) ∧
    upload_run us 1 1 = (5, [1, 2, 4, 8]) := by
  constructor
  · match rs, hrlen with
    | a :: b :: c :: d :: rest, _ =>
      rw [update_task_run_cons_retry a _ 0 (hrs a (by simp)) (by decide),
          update_task_run_cons_retry b _ 1 (hrs b (by simp)) (by decide),
          update_task_run_cons_retry c _ 2 (hrs c (by simp)) (by decide),
          update_task_run_cons_retry d _ 3 (hrs d (by simp)) (by decide),
          update_task_run_stop rest 4 (by decide)]
  · match us, hulen with
    | a :: b :: c :: d :: e :: rest, _ =>
      rw [upload_run_cons_fail a _ 1 1 (hus a (by simp)) (by decide),
          upload_run_cons_fail b _ 2 2 (hus b (by simp)) (by decide),
          upload_run_cons_fail c _ 3 4 (hus c (by simp)) (by decide),
          upload_run_cons_fail d _ 4 8 (hus d (by simp)) (by decide),
          upload_run_cons_last e _ 16 (hus e (by simp))]

/-- C3 witness: the amended schedules on concrete all-429 response lists. -/
theorem C3_retry_schedules_witness :
    update_task_run (List.replicate 4 429) 0 = (4, [2, 2, 2, 2]) ∧
    upload_run (List.replicate 5 429) 1 1 = (5, [1, 2, 4, 8]) :=
  C3_retry_schedules (List.replicate 4 429) (List.replicate 5 429)
    (by decide) (by decide) (by decide) (by decide)

/-- C4 counterexample: a 429 whose body contains the marker substring
"Too many concurrent requests" is retried after exactly 2 seconds — the same
fixed delay as any other 429 — and the delay can never take the value 7, so
it is not a uniform random value in [0, 10) seconds. -/
theorem C4_concurrent_429_cex :
    update_task_retry_delay 429 "Too many concurrent requests" = some 2 ∧
    update_task_retry_delay 429 "" = some 2 ∧
    update_task_retry_delay 429 "Too many concurrent requests" ≠ some 7 := by
  refine ⟨rfl, rfl, by decide⟩

/-- C4 (amended): for every put-result attempt answered 429 — whatever the
response body, marker substring or not — the delay before the next attempt is
the fixed constant 2 seconds (the body is never inspected), and every delay in
an `update_task` retry trace equals 2 seconds. -/
theorem C4_fixed_two_second_delay (body : String) (rs : List Int) (count : Nat) :
    update_task_retry_delay 429 body = some 2 ∧
    update_task_retry_delay 504 body = some 2 ∧
    ∀ d ∈ (update_task_run rs count).2, d = 2 := by
  refine ⟨rfl, rfl, ?_⟩
  induction rs generalizing count with
  | nil => simp [update_task_run]
  | cons s rest ih =>
    by_cases hc : count > max_retry
    · simp [update_task_run, hc]
    · by_cases h200 : s = 200
      · simp [update_task_run, hc, h200]
      · by_cases hretry : s = 429 ∨ s = 504
        · rw [update_task_run_cons_retry s rest count hretry hc]
          intro d hd
          rcases List.mem_cons.mp hd with h | h
          · exact h
          · exact ih (count + 1) d h
        · simp [update_task_run, hc, h200, hretry]

/-! ### Get-task backoff (`WatchdogWorker._get_task_loop`, lines 1691-1716)

The loop keeps `thread_backoff_time`, initially `min_backoff_time = 5`.
Status 200 resets it; a status strictly greater than 500 sleeps the current
backoff and then doubles it capped by `max_backoff_time = 600`; 204 and every
other status leave it unchanged with no backoff sleep. -/

/-- One iteration's effect of the fetch-response status on the backoff state:
the optional backoff sleep performed, and the new backoff value. -/
def get_task_backoff_step (status : Int) (backoff : Nat) : Option Nat × Nat :=
  if status = 200 then (none, min_backoff_time)
  else if status = 204 then (none, backoff)
  else if status > 500 then (some backoff, min max_backoff_time (backoff * 2))
  else (none, backoff)

/-- C5 counterexample: status 500 is a 5xx response, yet the fetch loop
performs no backoff sleep and leaves the backoff unchanged — the branch
guard is `status_code > 500`, which excludes 500 itself. -/
theorem C5_500_no_backoff_cex :
    get_task_backoff_step 500 5 = (none, 5) ∧
    get_task_backoff_step 500 5 ≠ (some 5, 10) := by
  decide

/-- C5 (amended): only statuses strictly greater than 500 trigger the
exponential backoff (sleep the current value, then double it capped at
600 seconds); the backoff starts at and is reset to 5 seconds by a 200
response; a 500 response causes no backoff wait and no change. -/
theorem C5_backoff_schedule (status : Int) (b : Nat) (h5 : 500 < status) :
    get_task_backoff_step status b = (some b, min max_backoff_time (b * 2)) ∧
    get_task_backoff_step 200 b = (none, min_backoff_time) ∧
    get_task_backoff_step 500 b = (none, b) ∧
    (get_task_backoff_step status b).2 ≤ max_backoff_time := by
  have h200 : status ≠ 200 := by omega
  have h204 : status ≠ 204 := by omega
  refine ⟨by simp [get_task_backoff_step, h200, h204, h5], by simp [get_task_backoff_step],
    by simp [get_task_backoff_step], ?_⟩
  simp [get_task_backoff_step, h200, h204, h5]

/-- C5 witness: the amended backoff behaviour at status 503 and backoff 5. -/
theorem C5_backoff_schedule_witness :
    get_task_backoff_step 503 5 = (some 5, min max_backoff_time (5 * 2)) ∧
    get_task_backoff_step 200 5 = (none, min_backoff_time) ∧
    get_task_backoff_step 500 5 = (none, 5) ∧
    (get_task_backoff_step 503 5).2 ≤ max_backoff_time :=
  C5_backoff_schedule 503 5 (by decide)

/-! ### Watchdog health metrics (`HealthMetrics`, lines 271-397)

Clock values (`time.time()` floats, seconds) are modelled as rationals.
`is_healthy` uses AND logic: the worker is unhealthy only when both the
get-task timestamp and the task-received timestamp are stale; a timestamp
that was never set falls back to comparing the uptime `now - start_time`
against the same threshold. -/

/-- The watchdog state: the two liveness timestamps (absent until first set),
the process start time, and the two staleness thresholds. -/
structure HealthMetrics where
  last_get_task_call : Option ℚ
  last_task_received : Option ℚ
  start_time : ℚ
  get_task_stale_threshold_sec : ℚ
  task_received_stale_threshold_sec : ℚ
deriving DecidableEq

/-- Staleness of the get-task timestamp (worker.py lines 336-346). -/
def get_task_stale (m : HealthMetrics) (now : ℚ) : Bool :=
  match m.last_get_task_call with
  | some t => decide (now - t > m.get_task_stale_threshold_sec)
  | none => decide (now - m.start_time > m.get_task_stale_threshold_sec)

/-- Staleness of the task-received timestamp (worker.py lines 348-358). -/
def task_received_stale (m : HealthMetrics) (now : ℚ) : Bool :=
  match m.last_task_received with
  | some t => decide (now - t > m.task_received_stale_threshold_sec)
  | none => decide (now - m.start_time > m.task_received_stale_threshold_sec)

/-- `HealthMetrics.is_healthy` (worker.py lines 330-362): healthy unless both
timestamps are stale. -/
def is_healthy (m : HealthMetrics) (now : ℚ) : Bool :=
  !(get_task_stale m now && task_received_stale m now)

/-- `HealthMetrics.reset_timestamps` (worker.py lines 364-376): both liveness
timestamps and the start time are set to the current time; called by
`WatchdogWorker._handle_restart` after tearing down the pool. -/
def reset_timestamps (m : HealthMetrics) (now : ℚ) : HealthMetrics :=
  { m with last_get_task_call := some now, last_task_received := some now,
           start_time := now }

/-- C6: the watchdog reports unhealthy iff both (a) more than
`getTaskStaleThreshold` seconds elapsed since the last get-task call and
(b) more than `taskReceivedStaleThreshold` seconds elapsed since the last
task was received, where a timestamp never set is read as the process start
time, i.e. its elapsed time is the uptime. -/
theorem C6_health_predicate (m : HealthMetrics) (now : ℚ) :
    is_healthy m now = false ↔
      (now - (m.last_get_task_call.getD m.start_time) >
          m.get_task_stale_threshold_sec ∧
       now - (m.last_task_received.getD m.start_time) >
          m.task_received_stale_threshold_sec) := by
  cases hg : m.last_get_task_call <;> cases hr : m.last_task_received <;>
    simp [is_healthy, get_task_stale, task_received_stale, hg, hr]

/-- C7: after a watchdog restart resets the timestamps to the restart time,
both liveness timestamps equal the restart time, and at the next watchdog
tick — any instant whose distance from the restart is within both staleness
thresholds, as a 60-second tick is for the default 3600/43200-second
thresholds — the health predicate reports healthy, so the restart cannot
immediately re-trigger itself. -/
theorem C7_restart_no_retrigger (m : HealthMetrics) (restartTime tick : ℚ)
    (hget : tick - restartTime ≤ m.get_task_stale_threshold_sec)
    (hrecv : tick - restartTime ≤ m.task_received_stale_threshold_sec) :
    (reset_timestamps m restartTime).last_get_task_call = some restartTime ∧
    (reset_timestamps m restartTime).last_task_received = some restartTime ∧
    is_healthy (reset_timestamps m restartTime) tick = true := by
  refine ⟨rfl, rfl, ?_⟩
  have hg : get_task_stale (reset_timestamps m restartTime) tick = false := by
    simp [get_task_stale, reset_timestamps]
    linarith
  have hr : task_received_stale (reset_timestamps m restartTime) tick = false := by
    simp [task_received_stale, reset_timestamps]
    linarith
  simp [is_healthy, hg, hr]

/-- C7 witness: the reset state is healthy at a tick 60 seconds after the
restart with the default thresholds. -/
theorem C7_restart_no_retrigger_witness :
    (reset_timestamps ⟨none, none, 0, 3600, 43200⟩ 1000).last_get_task_call = some 1000 ∧
    (reset_timestamps ⟨none, none, 0, 3600, 43200⟩ 1000).last_task_received = some 1000 ∧
    is_healthy (reset_timestamps ⟨none, none, 0, 3600, 43200⟩ 1000) 1060 = true :=
  C7_restart_no_retrigger ⟨none, none, 0, 3600, 43200⟩ 1000 1060
    (by norm_num) (by norm_num)

/-! ### Per-task temp-file lifecycle (C8)

`process_task` creates the raw output temp file and its zip sibling before
the `try` block (worker.py lines 941-953) and unlinks both in the `finally`
block (lines 1047-1055), which Python runs on every exit from the `try`:
the inline return, the artifact-upload return, the early fetch-logs return,
the `RequestException` handler and the generic exception handler. -/

/-- The exit paths of the `process_task` try block. -/
inductive ExitPath where
  | inlineSmall
  | artifactUpload
  | fetchLogs
  | networkError
  | unexpectedError
deriving DecidableEq

/-- Existence on disk of the two per-task temp files. -/
structure TempFiles where
  rawExists : Bool
  zipExists : Bool
deriving DecidableEq

/-- File-system operations `process_task` performs on its two temp files. -/
inductive FileOp where
  | createRaw
  | createZip
  | writeRaw
  | writeZip
  | unlinkRaw
  | unlinkZip
deriving DecidableEq

/-- Effect of one file operation on the existence state. -/
def apply_file_op (fs : TempFiles) : FileOp → TempFiles
  | .createRaw => { fs with rawExists := true }
  | .createZip => { fs with zipExists := true }
  | .writeRaw => fs
  | .writeZip => fs
  | .unlinkRaw => { fs with rawExists := false }
  | .unlinkZip => { fs with zipExists := false }

/-- File operations of the try block on each exit path: the inline path
writes the raw file; the artifact path additionally writes the zip sibling;
the fetch-logs path writes the zip archive; the two error paths write
nothing further. -/
def try_body_ops : ExitPath → List FileOp
  | .inlineSmall => [.writeRaw]
  | .artifactUpload => [.writeRaw, .writeZip]
  | .fetchLogs => [.writeZip]
  | .networkError => []
  | .unexpectedError => []

/-- Full file-operation trace of `process_task`: create both temp files, run
the try body, then the `finally` block unlinks both files. -/
def process_task_file_ops (p : ExitPath) : List FileOp :=
  [FileOp.createRaw, FileOp.createZip] ++ try_body_ops p ++
    [FileOp.unlinkRaw, FileOp.unlinkZip]

/-- Run a trace of file operations from a starting state. -/
def run_file_ops (fs : TempFiles) (ops : List FileOp) : TempFiles :=
  ops.foldl apply_file_op fs

/-- C8: on every exit path of `process_task` — inline success, artifact
upload, the fetch-logs special path, a network error from the target, and
any unexpected exception — neither the raw output temp file nor its zip
sibling exists once the executor returns. -/
theorem C8_temp_files_deleted (p : ExitPath) (fs : TempFiles) :
    (run_file_ops fs (process_task_file_ops p)).rawExists = false ∧
    (run_file_ops fs (process_task_file_ops p)).zipExists = false := by
  cases p <;>
    simp [run_file_ops, process_task_file_ops, try_body_ops, apply_file_op]

/-! ### Rate-limiter reconfiguration (`update_agent_config`, lines 1137-1154)

`update_agent_config` guards with `if global_config.get("rateLimitPerMin", 500):`
(a truthy test whose fallback for an absent key is 500) and then calls
`rate_limiter.set_limits(global_config.get("rateLimitPerMin", 100), 60)`
(whose fallback for an absent key is 100). -/

/-- The two limits held by `RateLimiter` and set by `set_limits`
(worker.py lines 158-160). -/
structure RateLimiterLimits where
  request_limit : Int
  time_window : Int
deriving DecidableEq, Repr

/-- The rate-limiter effect of `update_agent_config` (worker.py lines
1153-1154) given the optional integer value of the `rateLimitPerMin` key: an
absent key is `none`; the guard tests Python truthiness (non-zero) of the
value with default 500, the assignment reads it again with default 100. -/
def update_agent_config_rate (rateLimitPerMin : Option Int)
    (cur : RateLimiterLimits) : RateLimiterLimits :=
  if rateLimitPerMin.getD 500 ≠ 0 then
    { request_limit := rateLimitPerMin.getD 100, time_window := 60 }
  else cur

/-- C10: applying a `globalConfig` in which the key `rateLimitPerMin` is
absent still reconfigures the rate limiter, setting its limits to 100
admissions per 60-second window rather than leaving the current limits in
place: the absent key passes the truthy guard via its 500 default but is
read with the 100 default in the assignment. -/
theorem C10_absent_rate_limit_key (cur : RateLimiterLimits) :
    update_agent_config_rate none cur =
      { request_limit := 100, time_window := 60 } ∧
    (cur.request_limit ≠ 100 → update_agent_config_rate none cur ≠ cur) := by
  constructor
  · simp [update_agent_config_rate]
  · intro h contra
    apply h
    have := congrArg RateLimiterLimits.request_limit contra
    simpa [update_agent_config_rate] using this.symm

end ArmorAgent
